import Mathlib

/-!
Shallow embedding of the shopping-cart programs of this repository
(`Module8-Portfolio.py`, with the `Module6-Portfolio.py` variants modelled
where the two differ).  Python floats are modelled as rationals, Python ints
as integers, printed output as strings or lists of strings, and a raised
`ValueError` together with the state at the moment it is raised as a pair
`state × Option String` (the message of the exception, if one was raised).
-/

set_option autoImplicit false

/-- Python `str.strip()`: drop whitespace from both ends of the string. -/
def pyStrip (s : String) : String :=
  ⟨((s.data.dropWhile Char.isWhitespace).reverse.dropWhile Char.isWhitespace).reverse⟩

/-- Python `str.lower()` on the ASCII names this program manipulates. -/
def pyLower (s : String) : String :=
  ⟨s.data.map Char.toLower⟩

/-- One purchasable item, mirroring the `ItemToPurchase` dataclass: fields
`item_name`, `item_price`, `item_quantity`, `item_description` with the
dataclass defaults. -/
structure ItemToPurchase where
  item_name : String := "none"
  item_price : ℚ := 0
  item_quantity : ℤ := 0
  item_description : String := "none"
  deriving DecidableEq, Repr

/-- Clamp-then-multiply of `ItemToPurchase.total_cost`: a negative price or
quantity is replaced by zero before multiplying. -/
def ItemToPurchase.total_cost (self : ItemToPurchase) : ℚ :=
  (if self.item_price ≥ 0 then self.item_price else 0) *
    (if self.item_quantity ≥ 0 then (self.item_quantity : ℚ) else 0)

/-- Python `int(x)` on a float: truncation toward zero (used by the
`Module6` rendering code). -/
def pyTrunc (x : ℚ) : ℤ :=
  if 0 ≤ x then ⌊x⌋ else ⌈x⌉

/-- Rounding of a rational to the nearest integer, ties to even — the
rounding Python applies to the value `100·x` when formatting with `.2f`. -/
def rndHalfEven (y : ℚ) : ℤ :=
  if y - ⌊y⌋ < 1/2 then ⌊y⌋
  else if 1/2 < y - ⌊y⌋ then ⌊y⌋ + 1
  else if ⌊y⌋ % 2 = 0 then ⌊y⌋ else ⌊y⌋ + 1

/-- The two-decimal branch of `money_str`, the model of Python
`f"{x:.2f}"`: round `100·x` half-to-even, print sign, integer part, a dot
and exactly two digit characters. -/
def twoDecimals (x : ℚ) : String :=
  let n := rndHalfEven (100 * x)
  let a := n.natAbs
  (if n < 0 then "-" else "") ++ toString (a / 100) ++ "." ++
    String.mk [Nat.digitChar (a / 10 % 10), Nat.digitChar (a % 10)]

/-- `money_str` of `Module8-Portfolio.py`: a whole value prints as a bare
integer (`int(round(x))` of a whole `x` is `x` itself), anything else with
two decimal places. -/
def money_str (x : ℚ) : String :=
  if x.den = 1 then toString x.num else twoDecimals x

/-- The line printed by `ItemToPurchase.print_item_cost` in
`Module8-Portfolio.py`: `<name> <qty> @ $<price> = $<total>` with both
monetary values rendered by `money_str`. -/
def ItemToPurchase.cost_line (self : ItemToPurchase) : String :=
  self.item_name ++ " " ++ toString self.item_quantity ++ " @ $" ++
    money_str self.item_price ++ " = $" ++ money_str self.total_cost

/-- The line printed by `ItemToPurchase.print_item_cost` in
`Module6-Portfolio.py`: the price and the total are truncated with `int()`
before printing. -/
def ItemToPurchase.m6_cost_line (self : ItemToPurchase) : String :=
  self.item_name ++ " " ++ toString self.item_quantity ++ " @ $" ++
    toString (pyTrunc self.item_price) ++ " = $" ++
    toString (pyTrunc self.total_cost)

/-- The `if name is not None:` block of `ItemToPurchase.update`: strip, fail
on empty, otherwise assign.  The error value carries the state at the moment
the exception is raised. -/
def applyName (self : ItemToPurchase) :
    Option String → Except (ItemToPurchase × String) ItemToPurchase
  | none => .ok self
  | some n =>
      if pyStrip n = "" then .error (self, "Item name cannot be empty.")
      else .ok { self with item_name := pyStrip n }

/-- The `if description is not None:` block of `ItemToPurchase.update`. -/
def applyDescription (self : ItemToPurchase) :
    Option String → Except (ItemToPurchase × String) ItemToPurchase
  | none => .ok self
  | some d =>
      if pyStrip d = "" then .error (self, "Item description cannot be empty.")
      else .ok { self with item_description := pyStrip d }

/-- The `if price is not None:` block of `ItemToPurchase.update`: the
`float(price)` conversion of the source is the identity on an already
numeric price; a negative price raises, otherwise it is assigned.
(`Module6` orders the conversion and the sign check differently but
computes the same function of a numeric price.) -/
def applyPrice (self : ItemToPurchase) :
    Option ℚ → Except (ItemToPurchase × String) ItemToPurchase
  | none => .ok self
  | some p =>
      if p < 0 then .error (self, "Item price cannot be negative.")
      else .ok { self with item_price := p }

/-- The `if quantity is not None:` block of `ItemToPurchase.update`: the
`isinstance(quantity, int)` test always passes for an integer argument; a
negative quantity raises, otherwise it is assigned. -/
def applyQuantity (self : ItemToPurchase) :
    Option ℤ → Except (ItemToPurchase × String) ItemToPurchase
  | none => .ok self
  | some q =>
      if q < 0 then .error (self, "Item quantity cannot be negative.")
      else .ok { self with item_quantity := q }

/-- `ItemToPurchase.update`: the four blocks run in order, each mutating
`self` on success; an exception aborts the rest, leaving the fields already
assigned in place.  The result is the item state after the call together
with the exception message, if one was raised. -/
def ItemToPurchase.update (self : ItemToPurchase) (name description : Option String)
    (price : Option ℚ) (quantity : Option ℤ) : ItemToPurchase × Option String :=
  match (applyName self name).bind (fun s => applyDescription s description)
      |>.bind (fun s => applyPrice s price)
      |>.bind (fun s => applyQuantity s quantity) with
  | .ok s => (s, none)
  | .error (s, e) => (s, some e)

/-- The shopping cart, mirroring the `ShoppingCart` dataclass with its
defaults. -/
structure ShoppingCart where
  customer_name : String := "none"
  current_date : String := "January 1, 2020"
  cart_items : List ItemToPurchase := []
  deriving DecidableEq, Repr

/-- `ShoppingCart.add_item`: append the item to the cart list. -/
def ShoppingCart.add_item (self : ShoppingCart) (item_to_purchase : ItemToPurchase) :
    ShoppingCart :=
  { self with cart_items := self.cart_items ++ [item_to_purchase] }

/-- The scan of `ShoppingCart.remove_item`: delete the first item whose
lowercased stored name equals `key`, or report that none does. -/
def removeFirst (key : String) : List ItemToPurchase → Option (List ItemToPurchase)
  | [] => none
  | it :: rest =>
      if pyLower it.item_name = key then some rest
      else (removeFirst key rest).map (fun l => it :: l)

/-- `ShoppingCart.remove_item`: strip and lowercase the given name, delete
the first case-insensitive match, print the not-found message otherwise. -/
def ShoppingCart.remove_item (self : ShoppingCart) (item_name : String) :
    ShoppingCart × Option String :=
  match removeFirst (pyLower (pyStrip item_name)) self.cart_items with
  | some items => ({ self with cart_items := items }, none)
  | none => (self, some "Item not found in cart. Nothing removed.")

/-- The scan of `ShoppingCart.modify_item`: position and value of the first
item whose lowercased stored name equals `key`. -/
def findMatch (key : String) : List ItemToPurchase → Option (ℕ × ItemToPurchase)
  | [] => none
  | it :: rest =>
      if pyLower it.item_name = key then some (0, it)
      else (findMatch key rest).map (fun p => (p.1 + 1, p.2))

/-- Sequencing of statements inside the `try` block of
`ShoppingCart.modify_item`: a `ValueError` already raised skips the next
statement. -/
def catchStep (r : ItemToPurchase × Option String)
    (f : ItemToPurchase → ItemToPurchase × Option String) : ItemToPurchase × Option String :=
  match r with
  | (t, some e) => (t, some e)
  | (t, none) => f t

/-- The `try` block of `ShoppingCart.modify_item`: one `update` call per
non-sentinel field of the patch, in the order description, price, quantity;
a raised `ValueError` skips the remaining calls. -/
def modifySteps (target patch : ItemToPurchase) : ItemToPurchase × Option String :=
  catchStep (catchStep
    (if patch.item_description ≠ "none" then
        target.update none (some patch.item_description) none none
      else (target, none))
    (fun t =>
      if patch.item_price ≠ 0 then t.update none none (some patch.item_price) none
      else (t, none)))
    (fun t =>
      if patch.item_quantity ≠ 0 then t.update none none none (some patch.item_quantity)
      else (t, none))

/-- `ShoppingCart.modify_item`: locate the first case-insensitive match of
the stripped, lowercased patch name; if absent print the not-found
message; otherwise run the guarded `update` calls on the target, catching a
`ValueError` as a rejection message. -/
def ShoppingCart.modify_item (self : ShoppingCart) (item_to_purchase : ItemToPurchase) :
    ShoppingCart × Option String :=
  match findMatch (pyLower (pyStrip item_to_purchase.item_name)) self.cart_items with
  | none => (self, some "Item not found in cart. Nothing modified.")
  | some (i, target) =>
      let r := modifySteps target item_to_purchase
      ({ self with cart_items := self.cart_items.set i r.1 },
        r.2.map (fun e => "Modification rejected: " ++ e))

/-- `ShoppingCart.get_num_items_in_cart`: the Python `sum(...)` of the clamped
quantities, a left fold starting from `0`. -/
def ShoppingCart.get_num_items_in_cart (self : ShoppingCart) : ℤ :=
  self.cart_items.foldl (fun acc it => acc + max 0 it.item_quantity) 0

/-- `ShoppingCart.get_cost_of_cart`: the Python `sum(...)` of the per-item total
costs, a left fold starting from `0`. -/
def ShoppingCart.get_cost_of_cart (self : ShoppingCart) : ℚ :=
  self.cart_items.foldl (fun acc it => acc + it.total_cost) 0

/-- The header line both printing methods start with. -/
def ShoppingCart.header (self : ShoppingCart) : String :=
  self.customer_name ++ "\x27s Shopping Cart - " ++ self.current_date

/-- `ShoppingCart.print_total` of `Module8-Portfolio.py`, as the list of
printed lines: header, item count, then either the empty-cart sentinel or
the cost line of every item followed by the total. -/
def ShoppingCart.print_total (self : ShoppingCart) : List String :=
  let num_items := self.get_num_items_in_cart
  if num_items = 0 then
    [self.header, "Number of Items: " ++ toString num_items, "SHOPPING CART IS EMPTY"]
  else
    [self.header, "Number of Items: " ++ toString num_items] ++
      self.cart_items.map ItemToPurchase.cost_line ++
      ["Total: $" ++ money_str self.get_cost_of_cart]

/-- The name argument of an `update` call is invalid when it is supplied and
strips to the empty string. -/
def badName : Option String → Bool
  | none => false
  | some s => decide (pyStrip s = "")

/-- The description argument of an `update` call is invalid when it is
supplied and strips to the empty string. -/
def badDesc : Option String → Bool
  | none => false
  | some s => decide (pyStrip s = "")

/-- The price argument of an `update` call is invalid when it is supplied
and negative. -/
def badPrice : Option ℚ → Bool
  | none => false
  | some p => decide (p < 0)

/-- The quantity argument of an `update` call is invalid when it is supplied
and negative. -/
def badQty : Option ℤ → Bool
  | none => false
  | some q => decide (q < 0)

/-- Successful name assignment of `update`: the stripped name, when one is
supplied. -/
def apName (self : ItemToPurchase) : Option String → ItemToPurchase
  | none => self
  | some n => { self with item_name := pyStrip n }

/-- Successful description assignment of `update`. -/
def apDesc (self : ItemToPurchase) : Option String → ItemToPurchase
  | none => self
  | some d => { self with item_description := pyStrip d }

/-- Successful price assignment of `update`. -/
def apPrice (self : ItemToPurchase) : Option ℚ → ItemToPurchase
  | none => self
  | some p => { self with item_price := p }

/-- Successful quantity assignment of `update`. -/
def apQty (self : ItemToPurchase) : Option ℤ → ItemToPurchase
  | none => self
  | some q => { self with item_quantity := q }

/-- The invariant of the data model: a non-negative price and a
non-negative quantity. -/
def itemOK (it : ItemToPurchase) : Prop :=
  0 ≤ it.item_price ∧ 0 ≤ it.item_quantity

instance (it : ItemToPurchase) : Decidable (itemOK it) :=
  inferInstanceAs (Decidable (0 ≤ it.item_price ∧ 0 ≤ it.item_quantity))

/-- The cart-wide invariant: every stored item satisfies `itemOK`. -/
def cartOK (c : ShoppingCart) : Prop :=
  ∀ it ∈ c.cart_items, itemOK it

instance (c : ShoppingCart) : Decidable (cartOK c) :=
  inferInstanceAs (Decidable (∀ it ∈ c.cart_items, itemOK it))

theorem update_eq (self : ItemToPurchase) (n d : Option String) (p : Option ℚ)
    (q : Option ℤ) :
    self.update n d p q =
      if badName n then (self, some "Item name cannot be empty.")
      else if badDesc d then (apName self n, some "Item description cannot be empty.")
      else if badPrice p then
        (apDesc (apName self n) d, some "Item price cannot be negative.")
      else if badQty q then
        (apPrice (apDesc (apName self n) d) p, some "Item quantity cannot be negative.")
      else (apQty (apPrice (apDesc (apName self n) d) p) q, none) := by
  rcases n with _ | n <;> rcases d with _ | d <;> rcases p with _ | p <;> rcases q with _ | q <;>
    simp only [ItemToPurchase.update, applyName, applyDescription, applyPrice, applyQuantity,
      badName, badDesc, badPrice, badQty, apName, apDesc, apPrice, apQty, Except.bind,
      decide_eq_true_eq, Bool.if_false_left, Bool.if_true_left] <;>
    split_ifs <;> simp_all

theorem catchStep_none (t : ItemToPurchase)
    (f : ItemToPurchase → ItemToPurchase × Option String) :
    catchStep (t, none) f = f t := rfl

theorem catchStep_some (t : ItemToPurchase) (e : String)
    (f : ItemToPurchase → ItemToPurchase × Option String) :
    catchStep (t, some e) f = (t, some e) := rfl

theorem itemOK_apName (it : ItemToPurchase) (n : Option String) (h : itemOK it) :
    itemOK (apName it n) := by
  rcases n with _ | n <;> exact h

theorem itemOK_apDesc (it : ItemToPurchase) (d : Option String) (h : itemOK it) :
    itemOK (apDesc it d) := by
  rcases d with _ | d <;> exact h

theorem itemOK_apPrice (it : ItemToPurchase) (p : Option ℚ) (hp : badPrice p = false)
    (h : itemOK it) : itemOK (apPrice it p) := by
  rcases p with _ | p
  · exact h
  · simp only [badPrice, decide_eq_false_iff_not, not_lt] at hp
    exact ⟨hp, h.2⟩

theorem itemOK_apQty (it : ItemToPurchase) (q : Option ℤ) (hq : badQty q = false)
    (h : itemOK it) : itemOK (apQty it q) := by
  rcases q with _ | q
  · exact h
  · simp only [badQty, decide_eq_false_iff_not, not_lt] at hq
    exact ⟨h.1, hq⟩

theorem itemOK_update (it : ItemToPurchase) (n d : Option String) (p : Option ℚ)
    (q : Option ℤ) (h : itemOK it) : itemOK (it.update n d p q).1 := by
  rw [update_eq]
  rcases hn : badName n <;> rcases hd : badDesc d <;> rcases hp : badPrice p <;>
      rcases hq : badQty q <;>
    simp [hn, hd, hp, hq] <;>
    first
      | exact h
      | exact itemOK_apName it n h
      | exact itemOK_apDesc _ d (itemOK_apName it n h)
      | exact itemOK_apPrice _ p hp (itemOK_apDesc _ d (itemOK_apName it n h))
      | exact itemOK_apQty _ q hq
          (itemOK_apPrice _ p hp (itemOK_apDesc _ d (itemOK_apName it n h)))

theorem itemOK_catchStep (r : ItemToPurchase × Option String)
    (f : ItemToPurchase → ItemToPurchase × Option String) (hr : itemOK r.1)
    (hf : ∀ t, itemOK t → itemOK (f t).1) : itemOK (catchStep r f).1 := by
  rcases r with ⟨t, _ | e⟩
  · exact hf t hr
  · exact hr

theorem itemOK_modifySteps (t patch : ItemToPurchase) (h : itemOK t) :
    itemOK (modifySteps t patch).1 := by
  unfold modifySteps
  apply itemOK_catchStep
  · apply itemOK_catchStep
    · split
      · exact itemOK_update t none (some patch.item_description) none none h
      · exact h
    · intro t' h'
      split
      · exact itemOK_update t' none none (some patch.item_price) none h'
      · exact h'
  · intro t' h'
    split
    · exact itemOK_update t' none none none (some patch.item_quantity) h'
    · exact h'

theorem findMatch_get (key : String) (l : List ItemToPurchase) (i : ℕ)
    (t : ItemToPurchase) (h : findMatch key l = some (i, t)) : l.get? i = some t := by
  induction l generalizing i with
  | nil => simp [findMatch] at h
  | cons hd tl ih =>
      rw [findMatch] at h
      split at h
      · obtain ⟨rfl, rfl⟩ := by simpa using h
        rfl
      · rcases hfm : findMatch key tl with _ | ⟨j, t'⟩ <;> rw [hfm] at h
        · simp at h
        · obtain ⟨rfl, rfl⟩ := by simpa using h
          simpa using ih j hfm

theorem set_get_self (l : List ItemToPurchase) (i : ℕ) (a : ItemToPurchase)
    (h : l.get? i = some a) : l.set i a = l := by
  induction l generalizing i with
  | nil => simp at h
  | cons hd tl ih =>
      cases i with
      | zero => simp at h; simp [h]
      | succ j => simpa using ih j (by simpa using h)

theorem removeFirst_subset (key : String) (l l2 : List ItemToPurchase)
    (h : removeFirst key l = some l2) : ∀ x ∈ l2, x ∈ l := by
  induction l generalizing l2 with
  | nil => simp [removeFirst] at h
  | cons hd tl ih =>
      rw [removeFirst] at h
      split at h
      · obtain rfl := by simpa using h
        intro x hx
        exact List.mem_cons_of_mem hd hx
      · rcases hfm : removeFirst key tl with _ | l' <;> rw [hfm] at h
        · simp at h
        · obtain rfl := by simpa using h
          intro x hx
          rcases List.mem_cons.mp hx with rfl | hx'
          · exact List.mem_cons_self x tl
          · exact List.mem_cons_of_mem hd (ih l' hfm x hx')

theorem removeFirst_none (key : String) (l : List ItemToPurchase)
    (h : ∀ it ∈ l, pyLower it.item_name ≠ key) : removeFirst key l = none := by
  induction l with
  | nil => rfl
  | cons hd tl ih =>
      rw [removeFirst, if_neg (h hd (List.mem_cons_self hd tl))]
      rw [ih (fun it hit => h it (List.mem_cons_of_mem hd hit))]
      rfl

theorem removeFirst_first (key : String) (l1 l2 : List ItemToPurchase)
    (t : ItemToPurchase) (h1 : ∀ it ∈ l1, pyLower it.item_name ≠ key)
    (h2 : pyLower t.item_name = key) :
    removeFirst key (l1 ++ t :: l2) = some (l1 ++ l2) := by
  induction l1 with
  | nil => simp [removeFirst, h2]
  | cons hd tl ih =>
      rw [List.cons_append, removeFirst, if_neg (h1 hd (List.mem_cons_self hd tl)),
        ih (fun it hit => h1 it (List.mem_cons_of_mem hd hit))]
      rfl

theorem foldl_add_sum {β : Type} [AddCommMonoid β] (f : ItemToPurchase → β)
    (l : List ItemToPurchase) (acc : β) :
    l.foldl (fun a it => a + f it) acc = acc + (l.map f).sum := by
  induction l generalizing acc with
  | nil => simp
  | cons hd tl ih => simp [ih, add_assoc]

/-- C7: `total_cost` equals `price × quantity` when both are non-negative,
equals the product after substituting 0 for any negative factor — hence 0
whenever either is negative — and is always non-negative. -/
theorem C7_total_cost (it : ItemToPurchase) :
    (0 ≤ it.item_price → 0 ≤ it.item_quantity →
      it.total_cost = it.item_price * (it.item_quantity : ℚ))
    ∧ ((it.item_price < 0 ∨ it.item_quantity < 0) → it.total_cost = 0)
    ∧ 0 ≤ it.total_cost := by
  unfold ItemToPurchase.total_cost
  refine ⟨fun hp hq => by rw [if_pos hp, if_pos hq], fun h => ?_, ?_⟩
  · rcases h with h | h
    · rw [if_neg (not_le.mpr h), zero_mul]
    · rw [if_neg (not_le.mpr h), mul_zero]
  · split_ifs with h1 h2 h2
    · exact mul_nonneg h1 (by exact_mod_cast h2)
    · simp
    · simp
    · simp

theorem C7_total_cost_witness :
    (0 : ℚ) ≤ 5 ∧
    ((⟨"Pencil", 5, 2, "none"⟩ : ItemToPurchase).total_cost = 5 * ((2 : ℤ) : ℚ)) ∧
    ((⟨"Neg", -1, 5, "none"⟩ : ItemToPurchase).total_cost = 0) :=
  ⟨by decide, (C7_total_cost ⟨"Pencil", 5, 2, "none"⟩).1 (by decide) (by decide),
    (C7_total_cost ⟨"Neg", -1, 5, "none"⟩).2.1 (Or.inl (by decide))⟩

/-- C6: `get_num_items_in_cart` is the sum of the clamped quantities of all
items, never the number of distinct entries: a cart holding quantities 5
and 3 reports 8 while holding 2 entries. -/
theorem C6_get_num_items :
    (∀ cart : ShoppingCart, cart.get_num_items_in_cart =
      (cart.cart_items.map (fun it => max 0 it.item_quantity)).sum)
    ∧ (ShoppingCart.mk "c" "d"
        [⟨"a", 1, 5, "x"⟩, ⟨"b", 1, 3, "y"⟩]).get_num_items_in_cart = 8
    ∧ (ShoppingCart.mk "c" "d" [⟨"a", 1, 5, "x"⟩, ⟨"b", 1, 3, "y"⟩]).cart_items.length = 2 := by
  refine ⟨fun cart => ?_, by decide, by decide⟩
  simpa using foldl_add_sum (fun it => max 0 it.item_quantity) cart.cart_items 0

/-- C9: whenever the clamped quantity sum is zero, `print_total` prints the
header, the item count and the empty-cart sentinel, and nothing else — even
when the cart still holds items. -/
theorem C9_print_total_empty (cart : ShoppingCart)
    (h : cart.get_num_items_in_cart = 0) :
    cart.print_total =
      [cart.header, "Number of Items: 0", "SHOPPING CART IS EMPTY"] := by
  unfold ShoppingCart.print_total
  rw [h]
  rfl

theorem C9_print_total_empty_witness :
    (⟨"Alice", "May 1", [⟨"a", 5, 0, "x"⟩, ⟨"b", 2, 0, "y"⟩]⟩ : ShoppingCart).print_total =
      [(⟨"Alice", "May 1", [⟨"a", 5, 0, "x"⟩, ⟨"b", 2, 0, "y"⟩]⟩ : ShoppingCart).header,
        "Number of Items: 0", "SHOPPING CART IS EMPTY"] :=
  C9_print_total_empty _ (by decide)

/-- C10: the constructor stores its fields exactly as given — negative price
or quantity included — and `add_item` always succeeds, appending the item as
the new last element while every previously stored item keeps its position. -/
theorem C10_constructor_add (n : String) (p : ℚ) (q : ℤ) (d : String)
    (cart : ShoppingCart) :
    ((ItemToPurchase.mk n p q d).item_name = n
      ∧ (ItemToPurchase.mk n p q d).item_price = p
      ∧ (ItemToPurchase.mk n p q d).item_quantity = q
      ∧ (ItemToPurchase.mk n p q d).item_description = d)
    ∧ (cart.add_item (ItemToPurchase.mk n p q d)).cart_items.length =
        cart.cart_items.length + 1
    ∧ (cart.add_item (ItemToPurchase.mk n p q d)).cart_items.getLast? =
        some (ItemToPurchase.mk n p q d)
    ∧ ∀ i, i < cart.cart_items.length →
        (cart.add_item (ItemToPurchase.mk n p q d)).cart_items.get? i =
          cart.cart_items.get? i := by
  refine ⟨⟨rfl, rfl, rfl, rfl⟩, by simp [ShoppingCart.add_item], ?_, ?_⟩
  · simp [ShoppingCart.add_item]
  · intro i hi
    simp [ShoppingCart.add_item, List.getElem?_append_left hi]

theorem C10_constructor_add_witness :
    (ItemToPurchase.mk "bad" (-3) (-2) "d").item_price = -3
    ∧ ((⟨"c", "d", [⟨"a", 1, 1, "x"⟩]⟩ : ShoppingCart).add_item
        (ItemToPurchase.mk "bad" (-3) (-2) "d")).cart_items.get? 0 =
        (⟨"c", "d", [⟨"a", 1, 1, "x"⟩]⟩ : ShoppingCart).cart_items.get? 0 :=
  ⟨(C10_constructor_add "bad" (-3) (-2) "d" ⟨"c", "d", [⟨"a", 1, 1, "x"⟩]⟩).1.2.1,
    (C10_constructor_add "bad" (-3) (-2) "d" ⟨"c", "d", [⟨"a", 1, 1, "x"⟩]⟩).2.2.2 0
      (by decide)⟩

/-- C4: the invariant "every item has non-negative price and quantity" is
preserved by `update` (whether it succeeds or fails), by `add_item` of an
invariant-satisfying item, by `remove_item` and by `modify_item`; moreover a
lone negative price or quantity update is rejected with an error while the
item is left exactly as it was — never silently clamped. -/
theorem C4_invariant_preserved :
    (∀ (it : ItemToPurchase) (n d : Option String) (p : Option ℚ) (q : Option ℤ),
      itemOK it → itemOK (it.update n d p q).1)
    ∧ (∀ (cart : ShoppingCart) (it : ItemToPurchase), cartOK cart → itemOK it →
        cartOK (cart.add_item it))
    ∧ (∀ (cart : ShoppingCart) (s : String), cartOK cart → cartOK (cart.remove_item s).1)
    ∧ (∀ (cart : ShoppingCart) (patch : ItemToPurchase), cartOK cart →
        cartOK (cart.modify_item patch).1)
    ∧ (∀ (it : ItemToPurchase) (p : ℚ), p < 0 →
        (it.update none none (some p) none).2 = some "Item price cannot be negative."
        ∧ (it.update none none (some p) none).1 = it)
    ∧ (∀ (it : ItemToPurchase) (q : ℤ), q < 0 →
        (it.update none none none (some q)).2 = some "Item quantity cannot be negative."
        ∧ (it.update none none none (some q)).1 = it) := by
  refine ⟨itemOK_update, ?_, ?_, ?_, ?_, ?_⟩
  · intro cart it hc hi x hx
    rcases (by simpa [ShoppingCart.add_item] using hx :
        x ∈ cart.cart_items ∨ x = it) with hx' | rfl
    · exact hc x hx'
    · exact hi
  · intro cart s hc
    unfold ShoppingCart.remove_item
    rcases hrf : removeFirst (pyLower (pyStrip s)) cart.cart_items with _ | items
    · exact hc
    · exact fun x hx => hc x (removeFirst_subset _ _ _ hrf x hx)
  · intro cart patch hc
    unfold ShoppingCart.modify_item
    rcases hfm : findMatch (pyLower (pyStrip patch.item_name)) cart.cart_items
      with _ | ⟨i, target⟩
    · exact hc
    · intro x hx
      rcases List.mem_or_eq_of_mem_set hx with hx' | rfl
      · exact hc x hx'
      · exact itemOK_modifySteps target patch
          (hc target (List.get?_mem (findMatch_get _ _ _ _ hfm)))
  · intro it p hp
    rw [update_eq]
    simp [badName, badDesc, badPrice, badQty, hp, apName, apDesc]
  · intro it q hq
    rw [update_eq]
    simp [badName, badDesc, badPrice, badQty, hq, apName, apDesc, apPrice]

theorem C4_invariant_preserved_witness :
    cartOK (⟨"c", "d", [⟨"a", 1, 2, "x"⟩]⟩ : ShoppingCart)
    ∧ cartOK ((⟨"c", "d", [⟨"a", 1, 2, "x"⟩]⟩ : ShoppingCart).modify_item
        ⟨"a", -1, 0, "newdesc"⟩).1
    ∧ ((⟨"a", 1, 2, "x"⟩ : ItemToPurchase).update none none (some (-1)) none).1 =
        ⟨"a", 1, 2, "x"⟩ :=
  ⟨by decide,
    C4_invariant_preserved.2.2.2.1 ⟨"c", "d", [⟨"a", 1, 2, "x"⟩]⟩
      ⟨"a", -1, 0, "newdesc"⟩ (by decide),
    (C4_invariant_preserved.2.2.2.2.1 ⟨"a", 1, 2, "x"⟩ (-1) (by decide)).2⟩

theorem modify_item_found (cart : ShoppingCart) (patch : ItemToPurchase) (i : ℕ)
    (target : ItemToPurchase)
    (h : findMatch (pyLower (pyStrip patch.item_name)) cart.cart_items = some (i, target)) :
    cart.modify_item patch =
      ({ cart with cart_items := cart.cart_items.set i (modifySteps target patch).1 },
        (modifySteps target patch).2.map (fun e => "Modification rejected: " ++ e)) := by
  unfold ShoppingCart.modify_item
  rw [h]

theorem modifySteps_qty_patch (target : ItemToPurchase) (name : String) (q : ℤ) :
    modifySteps target ⟨name, 0, q, "none"⟩ =
      if q = 0 then (target, none) else target.update none none none (some q) := by
  unfold modifySteps
  dsimp only
  rw [if_neg (by simp), catchStep_none, if_neg (by simp), catchStep_none]
  by_cases hq : q = 0
  · rw [if_neg (by simpa using hq), if_pos hq]
  · rw [if_pos (by simpa using hq), if_neg hq]

/-- C3: on a cart whose first case-insensitive match for the patch name is
`target` at position `i`, a quantity-only patch (description `"none"`,
price 0) with quantity 0 leaves the cart — target included — completely
unchanged, while a positive quantity rewrites exactly the quantity of the
target and nothing else. -/
theorem C3_modify_quantity (cart : ShoppingCart) (name : String) (q : ℤ) (i : ℕ)
    (target : ItemToPurchase)
    (h : findMatch (pyLower (pyStrip name)) cart.cart_items = some (i, target)) :
    (q = 0 → cart.modify_item ⟨name, 0, 0, "none"⟩ = (cart, none))
    ∧ (0 < q → cart.modify_item ⟨name, 0, q, "none"⟩ =
        ({ cart with cart_items :=
            cart.cart_items.set i { target with item_quantity := q } }, none)) := by
  constructor
  · rintro rfl
    rw [modify_item_found cart _ i target h, modifySteps_qty_patch, if_pos rfl]
    simp [set_get_self cart.cart_items i target (findMatch_get _ _ _ _ h)]
  · intro hq
    rw [modify_item_found cart _ i target h, modifySteps_qty_patch, if_neg hq.ne.symm,
      update_eq]
    simp [badName, badDesc, badPrice, badQty, not_lt.mpr hq.le, apName, apDesc,
      apPrice, apQty]

theorem C3_modify_quantity_witness :
    ((⟨"c", "d", [⟨"Pencil", 5, 2, "w"⟩]⟩ : ShoppingCart).modify_item
        ⟨"PENCIL", 0, 0, "none"⟩ = (⟨"c", "d", [⟨"Pencil", 5, 2, "w"⟩]⟩, none))
    ∧ ((⟨"c", "d", [⟨"Pencil", 5, 2, "w"⟩]⟩ : ShoppingCart).modify_item
        ⟨"PENCIL", 0, 7, "none"⟩ = (⟨"c", "d", [⟨"Pencil", 5, 7, "w"⟩]⟩, none)) := by
  constructor
  · exact (C3_modify_quantity ⟨"c", "d", [⟨"Pencil", 5, 2, "w"⟩]⟩ "PENCIL" 0 0
      ⟨"Pencil", 5, 2, "w"⟩ (by decide)).1 rfl
  · have h := (C3_modify_quantity ⟨"c", "d", [⟨"Pencil", 5, 2, "w"⟩]⟩ "PENCIL" 7 0
      ⟨"Pencil", 5, 2, "w"⟩ (by decide)).2 (by decide)
    simpa using h

/-- C5 counterexample: `remove_item " a "` on a cart whose only item is
named `"a"` removes that item even though no stored name equals the given
name `" a "` under case-insensitive comparison — the call first trims the
given name, so the claim as stated fails. -/
theorem C5_counterexample :
    ((⟨"c", "d", [⟨"a", 1, 1, "x"⟩]⟩ : ShoppingCart).remove_item " a ").1.cart_items = []
    ∧ pyLower "a" ≠ pyLower " a " := by decide

/-- C5 (amended): `remove_item` strips the given name first, then removes
exactly the first item whose stored name equals the stripped name
case-insensitively, keeping every other item in order; when nothing matches
the cart is returned unchanged with the not-found message, and the
operation is total. -/
theorem C5_remove_item (cart : ShoppingCart) (name : String) :
    ((∀ it ∈ cart.cart_items, pyLower it.item_name ≠ pyLower (pyStrip name)) →
      cart.remove_item name = (cart, some "Item not found in cart. Nothing removed."))
    ∧ (∀ (l1 l2 : List ItemToPurchase) (t : ItemToPurchase),
        cart.cart_items = l1 ++ t :: l2 →
        (∀ it ∈ l1, pyLower it.item_name ≠ pyLower (pyStrip name)) →
        pyLower t.item_name = pyLower (pyStrip name) →
        cart.remove_item name = ({ cart with cart_items := l1 ++ l2 }, none)) := by
  constructor
  · intro h
    unfold ShoppingCart.remove_item
    rw [removeFirst_none _ _ h]
  · intro l1 l2 t hsplit h1 h2
    unfold ShoppingCart.remove_item
    rw [hsplit, removeFirst_first _ _ _ _ h1 h2]

theorem C5_remove_item_witness :
    ((⟨"c", "d", []⟩ : ShoppingCart).remove_item "ghost" =
      (⟨"c", "d", []⟩, some "Item not found in cart. Nothing removed."))
    ∧ ((⟨"c", "d", [⟨"Pencil", 1, 2, "x"⟩, ⟨"pen", 1, 1, "y"⟩]⟩ : ShoppingCart).remove_item
        "PENCIL" = (⟨"c", "d", [⟨"pen", 1, 1, "y"⟩]⟩, none)) := by
  constructor
  · exact (C5_remove_item ⟨"c", "d", []⟩ "ghost").1 (by decide)
  · have h := (C5_remove_item ⟨"c", "d", [⟨"Pencil", 1, 2, "x"⟩, ⟨"pen", 1, 1, "y"⟩]⟩
      "PENCIL").2 [] [⟨"pen", 1, 1, "y"⟩] ⟨"Pencil", 1, 2, "x"⟩ rfl (by decide) (by decide)
    simpa using h

/-- C1 counterexample: `update(name="x", price=-1)` fails, yet the item is
mutated — its name has already been overwritten when the price check
raises, so the call is not atomic. -/
theorem C1_counterexample :
    ((⟨"old", 5, 2, "d"⟩ : ItemToPurchase).update (some "x") none (some (-1)) none).2 ≠ none
    ∧ ((⟨"old", 5, 2, "d"⟩ : ItemToPurchase).update (some "x") none (some (-1)) none).1 ≠
        ⟨"old", 5, 2, "d"⟩ := by decide

/-- C1 (amended): the call fails exactly when a supplied field is invalid,
and the fields are validated and assigned in source order — name,
description, price, quantity — so the supplied fields before the first
invalid one are already assigned when the call fails, while the invalid
field and everything after it stay untouched; with all supplied fields
valid, all of them are assigned and the call succeeds. -/
theorem C1_update_not_atomic (it : ItemToPurchase) (n d : Option String)
    (p : Option ℚ) (q : Option ℤ) :
    ((it.update n d p q).2 ≠ none ↔
      (badName n || badDesc d || badPrice p || badQty q) = true)
    ∧ (badName n = true → (it.update n d p q).1 = it)
    ∧ (badName n = false → badDesc d = true → (it.update n d p q).1 = apName it n)
    ∧ (badName n = false → badDesc d = false → badPrice p = true →
        (it.update n d p q).1 = apDesc (apName it n) d)
    ∧ (badName n = false → badDesc d = false → badPrice p = false → badQty q = true →
        (it.update n d p q).1 = apPrice (apDesc (apName it n) d) p)
    ∧ (badName n = false → badDesc d = false → badPrice p = false → badQty q = false →
        it.update n d p q = (apQty (apPrice (apDesc (apName it n) d) p) q, none)) := by
  rw [update_eq]
  rcases hn : badName n <;> rcases hd : badDesc d <;> rcases hp : badPrice p <;>
    rcases hq : badQty q <;> simp

theorem C1_update_not_atomic_witness :
    ((⟨"old", 5, 2, "d"⟩ : ItemToPurchase).update (some "x") none (some (-1)) none).1 =
      apDesc (apName ⟨"old", 5, 2, "d"⟩ (some "x")) none :=
  (C1_update_not_atomic ⟨"old", 5, 2, "d"⟩ (some "x") none (some (-1)) none).2.2.2.1
    (by decide) (by decide) (by decide)

/-- C2 counterexample: a patch for item `"a"` carrying the valid description
`"newdesc"` together with the negative price `-1` is rejected, yet the
description of the target has already been overwritten when the price
update raises — the target is not left entirely unchanged. -/
theorem C2_counterexample :
    (⟨"c", "d", [⟨"a", 5, 2, "olddesc"⟩]⟩ : ShoppingCart).modify_item
        ⟨"a", -1, 0, "newdesc"⟩ =
      (⟨"c", "d", [⟨"a", 5, 2, "newdesc"⟩]⟩,
        some "Modification rejected: Item price cannot be negative.")
    ∧ (⟨"a", 5, 2, "newdesc"⟩ : ItemToPurchase) ≠ ⟨"a", 5, 2, "olddesc"⟩ := by
  decide

/-- C2 (amended): when the patch matches an item and carries a valid
description together with a negative price, the rejection message is
reported, but the description — applied before the price check raises — is
left overwritten on the target; the name, price and quantity of the target
and every other item of the cart are unchanged. -/
theorem C2_modify_rejection (cart : ShoppingCart) (patch : ItemToPurchase) (i : ℕ)
    (target : ItemToPurchase)
    (h : findMatch (pyLower (pyStrip patch.item_name)) cart.cart_items = some (i, target))
    (hd : patch.item_description ≠ "none")
    (hdv : pyStrip patch.item_description ≠ "")
    (hp : patch.item_price < 0) :
    cart.modify_item patch =
      ({ cart with cart_items :=
          (cart.cart_items.set i
            { target with item_description := pyStrip patch.item_description }) },
        some "Modification rejected: Item price cannot be negative.") := by
  rw [modify_item_found cart patch i target h]
  have h1 : target.update none (some patch.item_description) none none =
      ({ target with item_description := pyStrip patch.item_description }, none) := by
    rw [update_eq]
    simp [badName, badDesc, badPrice, badQty, hdv, apName, apDesc, apPrice, apQty]
  have h2 : ∀ t : ItemToPurchase, t.update none none (some patch.item_price) none =
      (t, some "Item price cannot be negative.") := by
    intro t
    rw [update_eq]
    simp [badName, badDesc, badPrice, badQty, hp, apName, apDesc]
  have hms : modifySteps target patch =
      ({ target with item_description := pyStrip patch.item_description },
        some "Item price cannot be negative.") := by
    unfold modifySteps
    rw [if_pos hd, h1, catchStep_none, if_pos hp.ne, h2, catchStep_some]
  rw [hms]
  rfl

theorem C2_modify_rejection_witness :
    (⟨"c", "d", [⟨"a", 5, 2, "olddesc"⟩]⟩ : ShoppingCart).modify_item
        ⟨"a", -1, 0, "newdesc"⟩ =
      (⟨"c", "d", [⟨"a", 5, 2, "newdesc"⟩]⟩,
        some "Modification rejected: Item price cannot be negative.") := by
  have h := C2_modify_rejection ⟨"c", "d", [⟨"a", 5, 2, "olddesc"⟩]⟩
    ⟨"a", -1, 0, "newdesc"⟩ 0 ⟨"a", 5, 2, "olddesc"⟩ (by decide) (by decide)
    (by decide) (by decide)
  simpa using h

theorem q255_eq : (2.55 : ℚ) = Rat.divInt 51 20 := by
  rw [Rat.divInt_eq_div]; norm_num

theorem q102_eq : (10.2 : ℚ) = Rat.divInt 51 5 := by
  rw [Rat.divInt_eq_div]; norm_num

theorem ms255 : money_str (2.55 : ℚ) = "2.55" := by
  rw [q255_eq]
  have h2 : (100 : ℚ) * Rat.divInt 51 20 = ((255 : ℤ) : ℚ) := by
    rw [Rat.divInt_eq_div]; norm_num
  rw [money_str, if_neg (by decide), twoDecimals, h2]
  norm_num [rndHalfEven]
  decide

theorem ms102 : money_str (10.2 : ℚ) = "10.20" := by
  rw [q102_eq]
  have h2 : (100 : ℚ) * Rat.divInt 51 5 = ((1020 : ℤ) : ℚ) := by
    rw [Rat.divInt_eq_div]; norm_num
  rw [money_str, if_neg (by decide), twoDecimals, h2]
  norm_num [rndHalfEven]
  decide

theorem pencil_total :
    (ItemToPurchase.mk "Pencil" (2.55 : ℚ) 4 "none").total_cost = (10.2 : ℚ) := by
  unfold ItemToPurchase.total_cost
  norm_num

theorem trunc255 : pyTrunc (2.55 : ℚ) = 2 := by
  unfold pyTrunc
  rw [if_pos (by norm_num), Int.floor_eq_iff]
  norm_num

theorem trunc102 : pyTrunc (10.2 : ℚ) = 10 := by
  unfold pyTrunc
  rw [if_pos (by norm_num), Int.floor_eq_iff]
  norm_num

/-- C8 counterexample: for the price 2.55 (quantity 4), the `Module6`
item-cost line renders the price as `$2` and the total as `$10` by integer
truncation, not `$2.55` and `$10.20` as the whole-number/two-decimal rule
demands — the `Module8` renderer follows the rule; the `Module6` one cited
by the claim does not. -/
theorem C8_counterexample :
    ItemToPurchase.m6_cost_line ⟨"Pencil", 2.55, 4, "none"⟩ = "Pencil 4 @ $2 = $10"
    ∧ ItemToPurchase.cost_line ⟨"Pencil", 2.55, 4, "none"⟩ = "Pencil 4 @ $2.55 = $10.20"
    ∧ ("Pencil 4 @ $2 = $10" : String) ≠ "Pencil 4 @ $2.55 = $10.20" := by
  refine ⟨?_, ?_, by decide⟩
  · unfold ItemToPurchase.m6_cost_line
    rw [pencil_total]
    rw [show (ItemToPurchase.mk "Pencil" (2.55 : ℚ) 4 "none").item_price = (2.55 : ℚ)
      from rfl]
    rw [trunc255, trunc102]
    decide
  · unfold ItemToPurchase.cost_line
    rw [pencil_total]
    rw [show (ItemToPurchase.mk "Pencil" (2.55 : ℚ) 4 "none").item_price = (2.55 : ℚ)
      from rfl]
    rw [ms255, ms102]
    decide

/-- C8 (amended): the `Module8` renderer satisfies the claim: `money_str`
prints a whole value as a bare integer and any other value with a dot and
exactly two decimal digits (10 renders as `10`, 2.55 as `2.55`), and both
the `Module8` item-cost line and the cart total line are built from
`money_str`; the `Module6` item-cost line instead truncates to integers. -/
theorem C8_money_format :
    (∀ x : ℚ, x.den = 1 → money_str x = toString x.num)
    ∧ (∀ x : ℚ, x.den ≠ 1 → ∃ s t : String, money_str x = s ++ "." ++ t ∧ t.length = 2)
    ∧ money_str (10 : ℚ) = "10"
    ∧ money_str (2.55 : ℚ) = "2.55"
    ∧ (∀ it : ItemToPurchase, it.cost_line =
        it.item_name ++ " " ++ toString it.item_quantity ++ " @ $" ++
          money_str it.item_price ++ " = $" ++ money_str it.total_cost)
    ∧ (∀ cart : ShoppingCart, cart.get_num_items_in_cart ≠ 0 →
        cart.print_total =
          [cart.header, "Number of Items: " ++ toString cart.get_num_items_in_cart] ++
            cart.cart_items.map ItemToPurchase.cost_line ++
            ["Total: $" ++ money_str cart.get_cost_of_cart]) := by
  refine ⟨?_, ?_, by decide, ms255, fun it => rfl, ?_⟩
  · intro x hx
    rw [money_str, if_pos hx]
  · intro x hx
    rw [money_str, if_neg hx]
    unfold twoDecimals
    exact ⟨_, _, rfl, rfl⟩
  · intro cart h
    unfold ShoppingCart.print_total
    rw [if_neg h]

theorem C8_money_format_witness :
    money_str (5 : ℚ) = toString (5 : ℚ).num
    ∧ (∃ s t : String, money_str (Rat.divInt 51 20) = s ++ "." ++ t ∧ t.length = 2)
    ∧ (⟨"c", "d", [⟨"a", 1, 2, "x"⟩]⟩ : ShoppingCart).print_total =
        [(⟨"c", "d", [⟨"a", 1, 2, "x"⟩]⟩ : ShoppingCart).header,
          "Number of Items: " ++
            toString (⟨"c", "d", [⟨"a", 1, 2, "x"⟩]⟩ : ShoppingCart).get_num_items_in_cart] ++
          ([⟨"a", 1, 2, "x"⟩] : List ItemToPurchase).map ItemToPurchase.cost_line ++
          ["Total: $" ++
            money_str (⟨"c", "d", [⟨"a", 1, 2, "x"⟩]⟩ : ShoppingCart).get_cost_of_cart] :=
  ⟨C8_money_format.1 5 (by decide),
    C8_money_format.2.1 (Rat.divInt 51 20) (by decide),
    C8_money_format.2.2.2.2.2 ⟨"c", "d", [⟨"a", 1, 2, "x"⟩]⟩ (by decide)⟩
